import Mathlib

/-!
Verification development for the no-cache static file server
(`src/nocache_server.py`).

The script subclasses the standard library static file handler and
overrides a single hook, `end_headers`, to append three cache-busting
headers to every response before the header block is finalized.  The
definitions below embed the script itself (the port constant, the bind
address, the startup line, the `end_headers` override) directly from the
source; the delegated static-file-serving behavior lives in the Python
standard library, outside this repository, so it is modelled from the
spec where a claim depends on it.  Response bodies are modelled as
strings (one character per byte).
-/

namespace NoCacheServer

/-- A single HTTP header: field name and literal value. -/
abbrev Header := String × String

/-- An HTTP response: status code, finalized header list and body.
Bodies are modelled as strings. -/
structure Response where
  status : Nat
  headers : List Header
  body : String
deriving Repr, DecidableEq

/-- Modelled from the spec: the filesystem tree under the served root
(the process working directory), as seen by the delegated static file
handler.  A node is either a regular file with its contents or a
directory with named immediate children. -/
inductive FSEntry where
  | file (content : String)
  | dir (entries : List (String × FSEntry))

/-- Modelled from the spec: path sanitization of the delegated
static-file handler.  Empty, current-directory and parent-directory
segments of the request path are discarded, so resolution can only walk
downward from the served root (standard path-traversal protection). -/
def sanitize (segs : List String) : List String :=
  segs.filter (fun s => !(s == "" || s == "." || s == ".."))

/-- Look up an immediate child of a directory by name. -/
def findEntry : List (String × FSEntry) → String → Option FSEntry
  | [], _ => none
  | (n, e) :: rest, s => if n == s then some e else findEntry rest s

/-- Modelled from the spec: resolution of a sanitized request path
against the served root, walking down the filesystem tree one segment
at a time.  Yields `none` when the path names no filesystem entry. -/
def resolve : FSEntry → List String → Option FSEntry
  | e, [] => some e
  | FSEntry.file _, _ :: _ => none
  | FSEntry.dir es, s :: rest =>
    match findEntry es s with
    | none => none
    | some c => resolve c rest

/-- Modelled from the spec: content-type inference from the file
extension, as performed by the delegated static-file handler. -/
def guessType (name : String) : String :=
  let ext := (name.splitOn ".").getLastD ""
  if ext == "html" then "text/html"
  else if ext == "htm" then "text/html"
  else if ext == "txt" then "text/plain"
  else if ext == "css" then "text/css"
  else if ext == "js" then "application/javascript"
  else if ext == "json" then "application/json"
  else if ext == "png" then "image/png"
  else "application/octet-stream"

/-- One list item of the auto-generated directory listing: the entry
name rendered as a link. -/
def linkItem (n : String) : String :=
  "<li><a href=\"" ++ n ++ "\">" ++ n ++ "</a></li>"

/-- Concatenation of a list of strings. -/
def concatAll : List String → String
  | [] => ""
  | s :: rest => s ++ concatAll rest

/-- Modelled from the spec: the auto-generated HTML directory listing,
one link per immediate entry name. -/
def htmlListing (names : List String) : String :=
  "<html><body><ul>" ++ concatAll (names.map linkItem) ++ "</ul></body></html>"

/-- Body of the standard 404 error page produced by the delegated
handler (modelled from the spec; the exact text is unspecified). -/
def errorBody404 : String := "<html><body>404 Not Found</body></html>"

/-- The three cache-busting headers sent by `NoCacheHandler.end_headers`
(src/nocache_server.py lines 10-12), in source order and with the
literal values of the source. -/
def noCacheHeaders : List Header :=
  [("Cache-Control", "no-store, no-cache, must-revalidate, max-age=0"),
   ("Pragma", "no-cache"),
   ("Expires", "0")]

/-- The base handler's header finalization: the finalized header block
is exactly the buffered headers (the terminating blank line is added by
`headerLines` below). -/
def base_end_headers (buf : List Header) : List Header := buf

/-- Embedding of `NoCacheHandler.end_headers`
(src/nocache_server.py lines 9-13): append the three cache-busting
headers to the buffered headers, then delegate to the base
finalization. -/
def NoCacheHandler_end_headers (buf : List Header) : List Header :=
  base_end_headers (buf ++ noCacheHeaders)

/-- Modelled from the spec: the delegated static-file request handling,
parametrized by the header-finalization hook `endH` (the only method the
script overrides).  The request path is sanitized and resolved against
the served root; a regular file yields 200 with the file bytes, a
content-type inferred from the extension and a Content-Length; a
directory yields 200 with the HTML listing of its immediate contents; an
unresolved path yields 404. -/
def handleWith (endH : List Header → List Header) (root : FSEntry)
    (rawSegs : List String) : Response :=
  let segs := sanitize rawSegs
  match resolve root segs with
  | none =>
    { status := 404
      headers := endH [("Content-Type", "text/html;charset=utf-8")]
      body := errorBody404 }
  | some (FSEntry.file c) =>
    { status := 200
      headers := endH [("Content-Type", guessType (segs.getLastD "")),
                       ("Content-Length", toString c.length)]
      body := c }
  | some (FSEntry.dir es) =>
    { status := 200
      headers := endH [("Content-Type", "text/html;charset=utf-8")]
      body := htmlListing (es.map Prod.fst) }

/-- The unmodified base static-file handler: finalization leaves the
buffered headers as they are. -/
def baseHandle : FSEntry → List String → Response :=
  handleWith base_end_headers

/-- The server's handler, `NoCacheHandler`: the base behavior with the
overridden `end_headers` as the finalization hook. -/
def noCacheHandle : FSEntry → List String → Response :=
  handleWith NoCacheHandler_end_headers

/-- The serialized header block of a response: one `name: value` line
per header, followed by the blank line that terminates the block. -/
def headerLines (r : Response) : List String :=
  r.headers.map (fun h => h.1 ++ ": " ++ h.2) ++ [""]

/-- `PORT = 8000` (src/nocache_server.py line 6): a fixed constant, not
read from any flag or environment. -/
def PORT : Nat := 8000

/-- A bind address: host and port.  The empty host string stands for
all available network interfaces. -/
structure BindAddress where
  host : String
  port : Nat
deriving Repr, DecidableEq

/-- The address handed to the TCP server
(src/nocache_server.py line 15): `("", PORT)`. -/
def serverAddress : BindAddress := { host := "", port := PORT }

/-- The startup line printed after a successful bind
(src/nocache_server.py line 16). -/
def startupLine : String :=
  "Serving at http://localhost:" ++ toString PORT ++ " with no-cache headers"

/-- Outcome of attempting to start the server. -/
inductive BindOutcome where
  | ok
  | bindError
deriving Repr, DecidableEq

/-- Result of running the script's startup sequence: whether the bind
succeeded, what was written to standard output, and how many requests
were served before the accept loop was entered (always zero; on a bind
error the process terminates without serving any). -/
structure StartResult where
  outcome : BindOutcome
  stdout : List String
  requestsServedBeforeLoop : Nat
deriving Repr, DecidableEq

/-- Modelled from the spec: binding the listening socket.  Binding
fails with a fatal bind error exactly when the port is already bound
(e.g. by another instance); `bound` is the set of ports already in use
on the host. -/
def tryBind (bound : List Nat) (addr : BindAddress) : BindOutcome :=
  if bound.contains addr.port then BindOutcome.bindError else BindOutcome.ok

/-- The script's startup sequence (src/nocache_server.py lines 15-17):
create the TCP server on `serverAddress` (modelled bind semantics from
the spec), and on success print the startup line before entering the
accept loop.  A bind error terminates the process with nothing printed
and no request served. -/
def startServer (bound : List Nat) : StartResult :=
  match tryBind bound serverAddress with
  | BindOutcome.bindError =>
    { outcome := BindOutcome.bindError, stdout := [], requestsServedBeforeLoop := 0 }
  | BindOutcome.ok =>
    { outcome := BindOutcome.ok, stdout := [startupLine], requestsServedBeforeLoop := 0 }

/-- Reachability in the filesystem tree: `Reach root e` holds when `e`
is `root` itself or an entry somewhere below `root`.  An entry outside
the served root is exactly one that is not reachable from it. -/
inductive Reach : FSEntry → FSEntry → Prop
  | refl (e : FSEntry) : Reach e e
  | step {es : List (String × FSEntry)} {c e : FSEntry} {n : String}
      (hmem : (n, c) ∈ es) (h : Reach c e) : Reach (FSEntry.dir es) e

/-- The characters of an appended string are the appended character
lists. -/
theorem data_append (a b : String) : (a ++ b).data = a.data ++ b.data := rfl

/-- The handler with the overridden `end_headers` produces exactly the
base handler's response with the three cache-busting headers appended
to its header list. -/
theorem handle_frame (root : FSEntry) (p : List String) :
    noCacheHandle root p =
      { baseHandle root p with
        headers := (baseHandle root p).headers ++ noCacheHeaders } := by
  simp only [noCacheHandle, baseHandle, handleWith, NoCacheHandler_end_headers,
    base_end_headers]
  cases resolve root (sanitize p) with
  | none => rfl
  | some e => cases e <;> rfl

/-- A successful directory lookup returns an immediate child. -/
theorem findEntry_mem : ∀ (es : List (String × FSEntry)) (s : String) (c : FSEntry),
    findEntry es s = some c → (s, c) ∈ es := by
  intro es s c
  induction es with
  | nil => intro h; simp [findEntry] at h
  | cons a rest ih =>
    obtain ⟨n, e⟩ := a
    intro h
    simp only [findEntry] at h
    by_cases hn : (n == s) = true
    · rw [if_pos hn] at h
      have he : e = c := by injection h
      have hs : n = s := eq_of_beq hn
      subst he; subst hs
      exact List.mem_cons_self _ _
    · rw [if_neg hn] at h
      exact List.mem_cons_of_mem _ (ih h)

/-- Every entry that path resolution yields is reachable from the root
by walking down the tree. -/
theorem resolve_reach (segs : List String) : ∀ (root e : FSEntry),
    resolve root segs = some e → Reach root e := by
  induction segs with
  | nil =>
    intro root e h
    simp only [resolve] at h
    have hr : root = e := by injection h
    exact hr ▸ Reach.refl root
  | cons s rest ih =>
    intro root e h
    cases root with
    | file c => simp [resolve] at h
    | dir es =>
      cases hf : findEntry es s with
      | none => exact Option.noConfusion (by simpa only [resolve, hf] using h)
      | some c =>
        simp only [resolve, hf] at h
        exact Reach.step (findEntry_mem es s c hf) (ih c e h)

/-- Each member of a name list contributes its link item as a
contiguous segment of the concatenated link items. -/
theorem concatAll_mem_data (n : String) : ∀ (l : List String), n ∈ l →
    ∃ pre post : List Char,
      (concatAll (l.map linkItem)).data = pre ++ ((linkItem n).data ++ post) := by
  intro l
  induction l with
  | nil => intro h; simp at h
  | cons a rest ih =>
    intro h
    rcases List.mem_cons.mp h with hh | hmem
    · subst hh
      refine ⟨[], (concatAll (rest.map linkItem)).data, ?_⟩
      show ((linkItem n) ++ concatAll (rest.map linkItem)).data = _
      simp [data_append]
    · obtain ⟨pre, post, hpp⟩ := ih hmem
      refine ⟨(linkItem a).data ++ pre, post, ?_⟩
      show ((linkItem a) ++ concatAll (rest.map linkItem)).data = _
      simp [data_append, hpp]

/-- Each name in the listing appears as a link item somewhere inside
the generated HTML page. -/
theorem htmlListing_mem_data {n : String} {names : List String} (h : n ∈ names) :
    ∃ pre post : List Char,
      (htmlListing names).data = pre ++ ((linkItem n).data ++ post) := by
  obtain ⟨pre, post, hpp⟩ := concatAll_mem_data n names h
  refine ⟨("<html><body><ul>" : String).data ++ pre,
    post ++ ("</ul></body></html>" : String).data, ?_⟩
  simp [htmlListing, data_append, hpp]

/-- Response of the no-cache handler when the path resolves to a
regular file. -/
theorem noCacheHandle_of_file {root : FSEntry} {p : List String} {c : String}
    (h : resolve root (sanitize p) = some (FSEntry.file c)) :
    noCacheHandle root p =
      { status := 200
        headers := [("Content-Type", guessType ((sanitize p).getLastD "")),
                    ("Content-Length", toString c.length)] ++ noCacheHeaders
        body := c } := by
  simp only [noCacheHandle, handleWith, h, NoCacheHandler_end_headers, base_end_headers]

/-- Response of the no-cache handler when the path resolves to a
directory. -/
theorem noCacheHandle_of_dir {root : FSEntry} {p : List String}
    {es : List (String × FSEntry)}
    (h : resolve root (sanitize p) = some (FSEntry.dir es)) :
    noCacheHandle root p =
      { status := 200
        headers := [("Content-Type", "text/html;charset=utf-8")] ++ noCacheHeaders
        body := htmlListing (es.map Prod.fst) } := by
  simp only [noCacheHandle, handleWith, h, NoCacheHandler_end_headers, base_end_headers]

/-- Response of the no-cache handler when the path resolves to no
filesystem entry. -/
theorem noCacheHandle_of_none {root : FSEntry} {p : List String}
    (h : resolve root (sanitize p) = none) :
    noCacheHandle root p =
      { status := 404
        headers := [("Content-Type", "text/html;charset=utf-8")] ++ noCacheHeaders
        body := errorBody404 } := by
  simp only [noCacheHandle, handleWith, h, NoCacheHandler_end_headers, base_end_headers]

/-- C1: every response the server produces, whatever the request path
and whatever the resulting status code, carries the three cache-busting
headers with exactly the literal values of the source, in addition to
every header the base file-serving behavior already set. -/
theorem cache_headers_on_every_response (root : FSEntry) (p : List String) :
    ("Cache-Control", "no-store, no-cache, must-revalidate, max-age=0")
        ∈ (noCacheHandle root p).headers ∧
    ("Pragma", "no-cache") ∈ (noCacheHandle root p).headers ∧
    ("Expires", "0") ∈ (noCacheHandle root p).headers ∧
    ∀ hd ∈ (baseHandle root p).headers, hd ∈ (noCacheHandle root p).headers := by
  rw [handle_frame root p]
  refine ⟨?_, ?_, ?_, ?_⟩
  · simp [noCacheHeaders]
  · simp [noCacheHeaders]
  · simp [noCacheHeaders]
  · intro hd hmem
    simp only [List.mem_append]
    exact Or.inl hmem

/-- C2: a request whose path resolves to a regular file under the
served root is answered 200 with a body identical to the file's
contents, a content-type inferred from the file extension, and a
Content-Length header. -/
theorem existing_file_served_verbatim (root : FSEntry) (p : List String)
    (c : String) (h : resolve root (sanitize p) = some (FSEntry.file c)) :
    (noCacheHandle root p).status = 200 ∧
    (noCacheHandle root p).body = c ∧
    ("Content-Type", guessType ((sanitize p).getLastD ""))
        ∈ (noCacheHandle root p).headers ∧
    ("Content-Length", toString c.length) ∈ (noCacheHandle root p).headers := by
  rw [noCacheHandle_of_file h]
  exact ⟨rfl, rfl, by simp, by simp⟩

/-- C2 witness: serving `/foo.txt` with on-disk contents `hello`. -/
theorem existing_file_served_verbatim_witness :
    (noCacheHandle (FSEntry.dir [("foo.txt", FSEntry.file "hello")])
        ["foo.txt"]).status = 200 ∧
    (noCacheHandle (FSEntry.dir [("foo.txt", FSEntry.file "hello")])
        ["foo.txt"]).body = "hello" ∧
    ("Content-Type", guessType ((sanitize ["foo.txt"]).getLastD ""))
        ∈ (noCacheHandle (FSEntry.dir [("foo.txt", FSEntry.file "hello")])
            ["foo.txt"]).headers ∧
    ("Content-Length", toString ("hello" : String).length)
        ∈ (noCacheHandle (FSEntry.dir [("foo.txt", FSEntry.file "hello")])
            ["foo.txt"]).headers :=
  existing_file_served_verbatim (FSEntry.dir [("foo.txt", FSEntry.file "hello")])
    ["foo.txt"] "hello" rfl

/-- C3: a request whose path resolves to no filesystem entry is
answered 404, and that 404 response still carries the three
cache-busting headers with their exact literal values. -/
theorem missing_path_yields_404_with_cache_headers (root : FSEntry)
    (p : List String) (h : resolve root (sanitize p) = none) :
    (noCacheHandle root p).status = 404 ∧
    ("Cache-Control", "no-store, no-cache, must-revalidate, max-age=0")
        ∈ (noCacheHandle root p).headers ∧
    ("Pragma", "no-cache") ∈ (noCacheHandle root p).headers ∧
    ("Expires", "0") ∈ (noCacheHandle root p).headers := by
  rw [noCacheHandle_of_none h]
  exact ⟨rfl, by simp [noCacheHeaders], by simp [noCacheHeaders],
    by simp [noCacheHeaders]⟩

/-- C3 witness: requesting `/does-not-exist` against an empty served
root. -/
theorem missing_path_yields_404_with_cache_headers_witness :
    (noCacheHandle (FSEntry.dir []) ["does-not-exist"]).status = 404 ∧
    ("Cache-Control", "no-store, no-cache, must-revalidate, max-age=0")
        ∈ (noCacheHandle (FSEntry.dir []) ["does-not-exist"]).headers ∧
    ("Pragma", "no-cache")
        ∈ (noCacheHandle (FSEntry.dir []) ["does-not-exist"]).headers ∧
    ("Expires", "0")
        ∈ (noCacheHandle (FSEntry.dir []) ["does-not-exist"]).headers :=
  missing_path_yields_404_with_cache_headers (FSEntry.dir [])
    ["does-not-exist"] rfl

/-- C4: a request whose path resolves to an existing directory is
answered 200 with the auto-generated HTML listing of the directory's
immediate contents, in which every immediate entry name occurs as a
link. -/
theorem directory_yields_listing (root : FSEntry) (p : List String)
    (es : List (String × FSEntry))
    (h : resolve root (sanitize p) = some (FSEntry.dir es)) :
    (noCacheHandle root p).status = 200 ∧
    (noCacheHandle root p).body = htmlListing (es.map Prod.fst) ∧
    ∀ n ∈ es.map Prod.fst, ∃ pre post : List Char,
      ((noCacheHandle root p).body).data = pre ++ ((linkItem n).data ++ post) := by
  rw [noCacheHandle_of_dir h]
  exact ⟨rfl, rfl, fun n hn => htmlListing_mem_data hn⟩

/-- C4 witness: listing `/subdir` holding one file `a.txt`. -/
theorem directory_yields_listing_witness :
    (noCacheHandle
        (FSEntry.dir [("subdir", FSEntry.dir [("a.txt", FSEntry.file "x")])])
        ["subdir"]).status = 200 ∧
    (noCacheHandle
        (FSEntry.dir [("subdir", FSEntry.dir [("a.txt", FSEntry.file "x")])])
        ["subdir"]).body
      = htmlListing (([("a.txt", FSEntry.file "x")]).map Prod.fst) ∧
    ∀ n ∈ ([("a.txt", FSEntry.file "x")]).map Prod.fst,
      ∃ pre post : List Char,
        ((noCacheHandle
            (FSEntry.dir [("subdir", FSEntry.dir [("a.txt", FSEntry.file "x")])])
            ["subdir"]).body).data = pre ++ ((linkItem n).data ++ post) :=
  directory_yields_listing
    (FSEntry.dir [("subdir", FSEntry.dir [("a.txt", FSEntry.file "x")])])
    ["subdir"] [("a.txt", FSEntry.file "x")] rfl

/-- C5: when the configured port is already bound, starting the server
fails with a fatal bind error, prints nothing, and serves no request. -/
theorem bound_port_bind_error (bound : List Nat)
    (h : bound.contains serverAddress.port = true) :
    (startServer bound).outcome = BindOutcome.bindError ∧
    (startServer bound).stdout = [] ∧
    (startServer bound).requestsServedBeforeLoop = 0 := by
  have h' : serverAddress.port ∈ bound := by simpa using h
  simp [startServer, tryBind, h']

/-- C5 witness: a second instance started while port 8000 is already
bound by a first instance. -/
theorem bound_port_bind_error_witness :
    (startServer [8000]).outcome = BindOutcome.bindError ∧
    (startServer [8000]).stdout = [] ∧
    (startServer [8000]).requestsServedBeforeLoop = 0 :=
  bound_port_bind_error [8000] (by decide)

/-- C6: the server binds on all interfaces (empty host) at port 8000,
a fixed constant. -/
theorem fixed_bind_address :
    serverAddress.host = "" ∧ serverAddress.port = PORT ∧ PORT = 8000 :=
  ⟨rfl, rfl, rfl⟩

/-- C7: after a successful bind and before the accept loop, exactly one
line is written to standard output, and it is exactly
`Serving at http://localhost:8000 with no-cache headers`. -/
theorem startup_line_exact (bound : List Nat)
    (h : (startServer bound).outcome = BindOutcome.ok) :
    (startServer bound).stdout
      = ["Serving at http://localhost:8000 with no-cache headers"] ∧
    (startServer bound).stdout.length = 1 := by
  by_cases hb : bound.contains serverAddress.port = true
  · exact absurd ((bound_port_bind_error bound hb).1 ▸ h) (by simp)
  · have hb' : bound.contains serverAddress.port = false :=
      Bool.not_eq_true _ ▸ hb
    simp only [startServer, tryBind, hb', if_neg, Bool.false_eq_true,
      not_false_eq_true]
    refine ⟨?_, rfl⟩
    have : startupLine = "Serving at http://localhost:8000 with no-cache headers" := by
      decide
    rw [this]

/-- C7 witness: starting with no port bound. -/
theorem startup_line_exact_witness :
    (startServer []).stdout
      = ["Serving at http://localhost:8000 with no-cache headers"] ∧
    (startServer []).stdout.length = 1 :=
  startup_line_exact [] (by decide)

/-- C8: path resolution only ever yields entries reachable from the
served root by walking downward, so no request — traversal segments
like `..` included, which sanitization discards — is answered with a
filesystem entry outside the root. -/
theorem resolution_stays_under_root (root : FSEntry) (p : List String)
    (e : FSEntry) (h : resolve root (sanitize p) = some e) :
    Reach root e ∧ ".." ∉ sanitize p := by
  refine ⟨resolve_reach (sanitize p) root e h, ?_⟩
  intro hmem
  have := List.of_mem_filter hmem
  simp at this

/-- C8 witness: a request containing a `..` traversal segment resolves
to an entry under the root. -/
theorem resolution_stays_under_root_witness :
    Reach (FSEntry.dir [("foo.txt", FSEntry.file "hi")]) (FSEntry.file "hi") ∧
    ".." ∉ sanitize ["..", "foo.txt"] :=
  resolution_stays_under_root (FSEntry.dir [("foo.txt", FSEntry.file "hi")])
    ["..", "foo.txt"] (FSEntry.file "hi") rfl

/-- C9: in every finalized header block the three injected headers
appear in the order Cache-Control, Pragma, Expires, after all headers
set by the base behavior and immediately before the terminating blank
line. -/
theorem injected_headers_order_and_placement (root : FSEntry) (p : List String) :
    headerLines (noCacheHandle root p)
      = ((baseHandle root p).headers.map (fun hd => hd.1 ++ ": " ++ hd.2)) ++
        ["Cache-Control: no-store, no-cache, must-revalidate, max-age=0",
         "Pragma: no-cache", "Expires: 0", ""] := by
  rw [handle_frame root p]
  simp [headerLines, noCacheHeaders]

/-- C10: the server's response is the base handler's response for the
same request and filesystem state — same status, same body — with the
only change being the three cache-busting headers appended to the
header list. -/
theorem only_change_is_cache_headers (root : FSEntry) (p : List String) :
    (noCacheHandle root p).status = (baseHandle root p).status ∧
    (noCacheHandle root p).body = (baseHandle root p).body ∧
    (noCacheHandle root p).headers = (baseHandle root p).headers ++ noCacheHeaders := by
  rw [handle_frame root p]
  exact ⟨rfl, rfl, rfl⟩

end NoCacheServer
